import Mathlib

/-!
Verification of the color-scheme preference resolver and the supabase
client cache of the repository.

The development shallowly embeds `src/hooks/useColorScheme.ts` and
`src/lib/supabaseClient.ts`.  Browser capabilities that the TypeScript
code probes dynamically (window/localStorage, matchMedia, document) are
embedded as explicit environment values: each capability is either
unavailable (`typeof window === "undefined"` or the API missing),
throwing (the access raises and the code's try/catch swallows it), or
available with concrete content.  React's state/effect semantics for the
hook are embedded as an explicit state-transition function (`rerender`):
a state update re-renders, the persistence effect (dependency list
`[preference]`) runs exactly when the preference changed, and the
document-application effect (dependency list `[scheme]`) runs exactly
when the derived scheme changed.
-/

/-- `ColorScheme` from useColorScheme.ts: `"light" | "dark"`. -/
inductive ColorScheme where
  | light
  | dark
deriving DecidableEq, Repr

/-- `ColorSchemePreference` from useColorScheme.ts: `ColorScheme | "system"`. -/
inductive ColorSchemePreference where
  | light
  | dark
  | system
deriving DecidableEq, Repr

/-- The TypeScript union coercion from `ColorScheme` into
`ColorSchemePreference` (implicit in the source's union types). -/
def ColorScheme.toPreference : ColorScheme → ColorSchemePreference
  | .light => .light
  | .dark => .dark

/-- The literal string stored for a preference (the identity on the
string-literal union in TypeScript). -/
def preferenceToString : ColorSchemePreference → String
  | .light => "light"
  | .dark => "dark"
  | .system => "system"

/-- The literal string for a scheme. -/
def schemeToString : ColorScheme → String
  | .light => "light"
  | .dark => "dark"

/-- `const STORAGE_KEY = "chatkit-color-scheme"` in useColorScheme.ts. -/
def STORAGE_KEY : String := "chatkit-color-scheme"

/-- State of the origin-scoped durable storage, as seen through
`window.localStorage` at key `STORAGE_KEY`:
`unavailable` embeds `typeof window === "undefined"`,
`throwing` embeds a storage access that raises,
`store v` embeds an accessible storage whose content at the key is `v`
(`none` = key absent, i.e. `getItem` returns null). -/
inductive StorageState where
  | unavailable
  | throwing
  | store (val : Option String)
deriving DecidableEq, Repr

/-- Result of `getMediaQuery()` in useColorScheme.ts:
`unavailable` embeds `typeof window === "undefined"` or
`window.matchMedia` not being a function (the function returns null),
`throwing` embeds `window.matchMedia(...)` raising (caught, null
returned), `available b` embeds a live MediaQueryList whose `matches`
field is `b`. -/
inductive MediaEnv where
  | unavailable
  | throwing
  | available (matchesDark : Bool)
deriving DecidableEq, Repr

/-- The boolean platform dark-mode signal as the code reads it:
`media?.matches` — `false` whenever `getMediaQuery()` returned null. -/
def currentSystemSignal : MediaEnv → Bool
  | .unavailable => false
  | .throwing => false
  | .available b => b

/-- `getSystemSnapshot()` in useColorScheme.ts:
`media?.matches ? "dark" : "light"`. -/
def getSystemSnapshot (m : MediaEnv) : ColorScheme :=
  if currentSystemSignal m then .dark else .light

/-- `getServerSnapshot()` in useColorScheme.ts: the constant `"light"`
returned while no live document can be queried. -/
def getServerSnapshot : ColorScheme := .light

/-- `readStoredPreference()` in useColorScheme.ts.  Returns null when
window is undefined; otherwise reads the raw string and narrows it:
`raw === "light" || raw === "dark"` returns it, then
`raw === "system" ? "system" : null`.  A storage access that throws is
caught and null is returned. -/
def readStoredPreference (st : StorageState) : Option ColorSchemePreference :=
  match st with
  | .unavailable => none
  | .throwing => none
  | .store none => none
  | .store (some raw) =>
    if raw = "light" then some .light
    else if raw = "dark" then some .dark
    else if raw = "system" then some .system
    else none

/-- `persistPreference(preference)` in useColorScheme.ts.  Returns the
storage state after the call: no-op when window is undefined, the key
removed for `"system"`, the literal stored otherwise; a throwing storage
leaves the state as it was (the exception is caught and swallowed). -/
def persistPreference (preference : ColorSchemePreference) (st : StorageState) : StorageState :=
  match st with
  | .unavailable => .unavailable
  | .throwing => .throwing
  | .store _ =>
    match preference with
    | .system => .store none
    | .light => .store (some "light")
    | .dark => .store (some "dark")

/-- State of the presentation surface (`document.documentElement`):
`unavailable` embeds `typeof document === "undefined"`; `available`
carries the `data-color-scheme` dataset attribute, the presence of the
`"dark"` class, and the `style.colorScheme` hint. -/
inductive DocumentState where
  | unavailable
  | available (datasetColorScheme : Option String) (hasDarkClass : Bool)
      (styleColorScheme : Option String)
deriving DecidableEq, Repr

/-- `applyDocumentScheme(scheme)` in useColorScheme.ts:
`root.dataset.colorScheme = scheme`,
`root.classList.toggle("dark", scheme === "dark")`,
`root.style.colorScheme = scheme`; no-op when document is undefined. -/
def applyDocumentScheme (scheme : ColorScheme) (d : DocumentState) : DocumentState :=
  match d with
  | .unavailable => .unavailable
  | .available _ _ _ =>
    .available (some (schemeToString scheme)) (scheme = ColorScheme.dark)
      (some (schemeToString scheme))

/-- The scheme derivation in `useColorScheme` (the useMemo body):
`preference === "system" ? systemScheme : preference`. -/
def schemeOfPreference (preference : ColorSchemePreference) (systemScheme : ColorScheme) :
    ColorScheme :=
  match preference with
  | .system => systemScheme
  | .light => .light
  | .dark => .dark

/-- One live hook instance: its React `preference` state, the media
environment it observes, and the document it writes to.  The shared
storage is threaded separately so several instances can share it. -/
structure Instance where
  preference : ColorSchemePreference
  media : MediaEnv
  doc : DocumentState
deriving DecidableEq, Repr

/-- The derived `scheme` of an instance (the useMemo value). -/
def Instance.scheme (i : Instance) : ColorScheme :=
  schemeOfPreference i.preference (getSystemSnapshot i.media)

/-- React re-render after `setPreferenceState` resolves to `newPref`:
if the value is unchanged React bails out and no effect runs; otherwise
the `[preference]` effect persists the new preference, and the
`[scheme]` effect re-applies the document scheme exactly when the
derived scheme changed. -/
def rerender (i : Instance) (st : StorageState) (newPref : ColorSchemePreference) :
    Instance × StorageState :=
  let i2 : Instance := { i with preference := newPref }
  let st2 := if newPref = i.preference then st else persistPreference newPref st
  let i3 := if i2.scheme = i.scheme then i2
            else { i2 with doc := applyDocumentScheme i2.scheme i2.doc }
  (i3, st2)

/-- The hook's `setPreference` callback: `setPreferenceState(next)`. -/
def setPreference (next : ColorSchemePreference) (i : Instance) (st : StorageState) :
    Instance × StorageState :=
  rerender i st next

/-- The hook's `setScheme` callback: `setPreferenceState(next)` with
`next : ColorScheme` (coerced by the union type). -/
def setScheme (next : ColorScheme) (i : Instance) (st : StorageState) :
    Instance × StorageState :=
  rerender i st next.toPreference

/-- The hook's `resetPreference` callback: `setPreferenceState("system")`. -/
def resetPreference (i : Instance) (st : StorageState) : Instance × StorageState :=
  rerender i st .system

/-- The storage-event handler in `useColorScheme`: events whose key is
not `STORAGE_KEY` are ignored; otherwise
`setPreferenceState((current) => readStoredPreference() ?? current)`
followed by the re-render semantics. -/
def handleStorage (eventKey : String) (i : Instance) (st : StorageState) :
    Instance × StorageState :=
  if eventKey = STORAGE_KEY then
    rerender i st ((readStoredPreference st).getD i.preference)
  else
    (i, st)

/-- The useState initializer in `useColorScheme`: the caller default
when window is undefined, otherwise `readStoredPreference() ?? initialPreference`. -/
def initialPreferenceState (st : StorageState) (init : ColorSchemePreference) :
    ColorSchemePreference :=
  match st with
  | .unavailable => init
  | _ => (readStoredPreference st).getD init

/-- The declared default of the hook's `initialPreference` argument. -/
def defaultInitialPreference : ColorSchemePreference := .system

/-- Mounting the hook: the preference state is initialized, then the
mount-time effect runs persist the initial preference, and the document
scheme is applied once. -/
def mount (init : ColorSchemePreference) (st : StorageState) (media : MediaEnv)
    (doc : DocumentState) : Instance × StorageState :=
  let i0 : Instance := { preference := initialPreferenceState st init, media := media, doc := doc }
  ({ i0 with doc := applyDocumentScheme i0.scheme i0.doc }, persistPreference i0.preference st)

/-- A constructed supabase client, identified by the (trimmed) url and
anon key it was created from (`createClient(supabaseUrl, supabaseAnonKey)`
in src/lib/supabaseClient.ts). -/
structure SupabaseClient where
  supabaseUrl : String
  supabaseAnonKey : String
deriving DecidableEq, Repr

/-- The environment `getSupabaseClient` reads: the two `process.env`
variables (`none` = unset) and whether `createClient` throws. -/
structure SupabaseEnv where
  url : Option String
  anonKey : Option String
  createThrows : Bool
deriving DecidableEq, Repr

/-- `getSupabaseClient()` in src/lib/supabaseClient.ts, with the
module-level `cachedClient` threaded explicitly.  The cache cell is
`Option (Option SupabaseClient)`: `none` embeds the JS `undefined`
(never computed), `some none` a cached null, `some (some c)` a cached
client.  `env.url?.trim()` keeps `undefined` as `undefined`; the
`!supabaseUrl || !supabaseAnonKey` guard is true exactly when a variable
is unset or trims to the empty string.  Returns the call's result and
the cache cell after the call. -/
def getSupabaseClient (env : SupabaseEnv) (cached : Option (Option SupabaseClient)) :
    Option SupabaseClient × Option (Option SupabaseClient) :=
  match cached with
  | some c => (c, some c)
  | none =>
    let supabaseUrl := (env.url.map String.trim).getD ""
    let supabaseAnonKey := (env.anonKey.map String.trim).getD ""
    if supabaseUrl = "" ∨ supabaseAnonKey = "" then
      (none, some none)
    else if env.createThrows then
      (none, some none)
    else
      let c : SupabaseClient := ⟨supabaseUrl, supabaseAnonKey⟩
      (some c, some (some c))

/-! Helper lemmas about the re-render semantics. -/

lemma rerender_preference (i : Instance) (st : StorageState) (q : ColorSchemePreference) :
    (rerender i st q).1.preference = q := by
  unfold rerender
  dsimp only
  split <;> rfl

lemma rerender_media (i : Instance) (st : StorageState) (q : ColorSchemePreference) :
    (rerender i st q).1.media = i.media := by
  unfold rerender
  dsimp only
  split <;> rfl

lemma rerender_storage (i : Instance) (st : StorageState) (q : ColorSchemePreference) :
    (rerender i st q).2 = if q = i.preference then st else persistPreference q st := rfl

lemma rerender_scheme (i : Instance) (st : StorageState) (q : ColorSchemePreference) :
    (rerender i st q).1.scheme = schemeOfPreference q (getSystemSnapshot i.media) := by
  unfold Instance.scheme
  rw [rerender_preference, rerender_media]

/-- C1: for every preference p and system signal s, the derived scheme
equals p when p is not system, and equals dark iff s when p is system;
the derivation is a total function of the six input pairs. -/
theorem c1_scheme_derivation_total_correct :
    ∀ (p : ColorSchemePreference) (s : Bool),
      schemeOfPreference p (getSystemSnapshot (.available s)) =
        (match p with
         | .light => ColorScheme.light
         | .dark => ColorScheme.dark
         | .system => if s then ColorScheme.dark else ColorScheme.light) := by
  intro p s
  cases p <;> cases s <;> rfl

/-- C2: the store read returns the stored preference exactly when the raw
string is one of the three literals, and returns absent for a missing
key, any other string (including "blue" and the empty string), an
unavailable window, or a throwing storage access — never an error. -/
theorem c2_read_exact_literals_else_absent :
    ∀ (raw : String) (p : ColorSchemePreference),
      (readStoredPreference (.store (some raw)) = some p ↔ raw = preferenceToString p)
      ∧ readStoredPreference (.store none) = none
      ∧ readStoredPreference .unavailable = none
      ∧ readStoredPreference .throwing = none
      ∧ readStoredPreference (.store (some "blue")) = none
      ∧ readStoredPreference (.store (some "")) = none := by
  intro raw p
  refine ⟨?_, rfl, rfl, rfl, by decide, by decide⟩
  cases p <;> simp [readStoredPreference, preferenceToString] <;>
    split_ifs <;> simp_all

/-- C3: the store write removes the key for preference system, stores the
exact literal for light and dark, and is a no-op (never raising) when the
window is unavailable or storage throws. -/
theorem c3_write_removes_system_stores_literals :
    ∀ (v : Option String) (p : ColorSchemePreference),
      persistPreference .system (.store v) = .store none
      ∧ persistPreference .light (.store v) = .store (some "light")
      ∧ persistPreference .dark (.store v) = .store (some "dark")
      ∧ persistPreference p .unavailable = .unavailable
      ∧ persistPreference p .throwing = .throwing := by
  intro v p
  exact ⟨rfl, rfl, rfl, rfl, rfl⟩

/-- C4: write(p) then read() yields p for p in light and dark, write(system)
then read() yields absent, and a resolver initialized from an absent
stored value with the default (absent) caller argument has preference
system. -/
theorem c4_store_round_trip :
    ∀ (v : Option String),
      readStoredPreference (persistPreference .light (.store v)) = some .light
      ∧ readStoredPreference (persistPreference .dark (.store v)) = some .dark
      ∧ readStoredPreference (persistPreference .system (.store v)) = none
      ∧ initialPreferenceState (.store none) defaultInitialPreference = .system := by
  intro v
  exact ⟨rfl, rfl, rfl, rfl⟩

/-- C5: in a capability-unavailable environment the system signal reads
false and the snapshot is light; a freshly mounted resolver with no prior
state has preference system, scheme light, and untouched storage; and
every mutation operation completes, yielding its defined result with the
storage left unavailable (nothing raises). -/
theorem c5_capability_unavailable_defaults :
    currentSystemSignal .unavailable = false
    ∧ currentSystemSignal .throwing = false
    ∧ getSystemSnapshot .unavailable = .light
    ∧ getSystemSnapshot .throwing = .light
    ∧ (mount defaultInitialPreference .unavailable .unavailable .unavailable).1.preference
        = .system
    ∧ (mount defaultInitialPreference .unavailable .unavailable .unavailable).1.scheme = .light
    ∧ (mount defaultInitialPreference .unavailable .unavailable .unavailable).2 = .unavailable
    ∧ (∀ (p : ColorSchemePreference) (i : Instance),
        (setPreference p i .unavailable).1.preference = p
        ∧ (setPreference p i .unavailable).2 = .unavailable)
    ∧ (∀ (s : ColorScheme) (i : Instance),
        (setScheme s i .unavailable).1.preference = s.toPreference
        ∧ (setScheme s i .unavailable).2 = .unavailable)
    ∧ (∀ (i : Instance),
        (resetPreference i .unavailable).1.preference = .system
        ∧ (resetPreference i .unavailable).2 = .unavailable) := by
  refine ⟨rfl, rfl, rfl, rfl, rfl, rfl, rfl, ?_, ?_, ?_⟩
  · intro p i
    refine ⟨rerender_preference i .unavailable p, ?_⟩
    rw [setPreference, rerender_storage]
    split <;> rfl
  · intro s i
    refine ⟨rerender_preference i .unavailable s.toPreference, ?_⟩
    rw [setScheme, rerender_storage]
    split <;> rfl
  · intro i
    refine ⟨rerender_preference i .unavailable .system, ?_⟩
    rw [resetPreference, rerender_storage]
    split <;> rfl

/-- C6: a storage notification for a different key is ignored; for the
resolver's key the instance adopts the stored value exactly when it
parses to a valid preference and keeps its own preference otherwise; in
the cross-instance scenario, A calling setPreference(dark) stores "dark",
and B handling the notification on the shared storage ends with
preference and scheme dark while the shared storage (and A, untouched by
B's handler) keep the value A wrote. -/
theorem c6_storage_event_adoption :
    ∀ (iA iB : Instance) (v : Option String) (k : String),
      (k ≠ STORAGE_KEY → handleStorage k iB (.store v) = (iB, .store v))
      ∧ (∀ p, readStoredPreference (.store v) = some p →
          (handleStorage STORAGE_KEY iB (.store v)).1.preference = p)
      ∧ (readStoredPreference (.store v) = none →
          (handleStorage STORAGE_KEY iB (.store v)).1.preference = iB.preference)
      ∧ (iA.preference ≠ .dark →
          (setPreference .dark iA (.store v)).1.preference = .dark
          ∧ (setPreference .dark iA (.store v)).2 = .store (some "dark")
          ∧ (handleStorage STORAGE_KEY iB (setPreference .dark iA (.store v)).2).1.preference
              = .dark
          ∧ (handleStorage STORAGE_KEY iB (setPreference .dark iA (.store v)).2).1.scheme
              = .dark
          ∧ (handleStorage STORAGE_KEY iB (setPreference .dark iA (.store v)).2).2
              = .store (some "dark")) := by
  intro iA iB v k
  refine ⟨?_, ?_, ?_, ?_⟩
  · intro hk
    rw [handleStorage, if_neg hk]
  · intro p hp
    rw [handleStorage, if_pos rfl, hp]
    exact rerender_preference iB (.store v) p
  · intro hp
    rw [handleStorage, if_pos rfl, hp]
    exact rerender_preference iB (.store v) iB.preference
  · intro hA
    have hstore : (setPreference .dark iA (.store v)).2 = .store (some "dark") := by
      rw [setPreference, rerender_storage, if_neg (fun h => hA h.symm)]
      rfl
    refine ⟨rerender_preference iA (.store v) .dark, hstore, ?_, ?_, ?_⟩
    · rw [hstore, handleStorage, if_pos rfl]
      exact rerender_preference iB (.store (some "dark")) _
    · rw [hstore, handleStorage, if_pos rfl]
      have : readStoredPreference (.store (some "dark")) = some .dark := by decide
      rw [this]
      rw [rerender_scheme]
      rfl
    · rw [hstore, handleStorage, if_pos rfl]
      have : readStoredPreference (.store (some "dark")) = some .dark := by decide
      rw [this, rerender_storage]
      split <;> rfl

/-- C6 witness: concrete instances exercising the adoption, the
ignored-key case, the absent case, and the full scenario. -/
theorem c6_storage_event_adoption_witness :
    handleStorage "other-key" ⟨.light, .unavailable, .unavailable⟩ (.store (some "dark"))
        = (⟨.light, .unavailable, .unavailable⟩, .store (some "dark"))
    ∧ (handleStorage STORAGE_KEY ⟨.light, .unavailable, .unavailable⟩
        (.store (some "dark"))).1.preference = .dark
    ∧ (handleStorage STORAGE_KEY ⟨.light, .unavailable, .unavailable⟩
        (.store (some "blue"))).1.preference = .light
    ∧ (handleStorage STORAGE_KEY ⟨.dark, .unavailable, .unavailable⟩
        (setPreference .dark ⟨.light, .unavailable, .unavailable⟩ (.store none)).2).1.scheme
        = .dark :=
  ⟨(c6_storage_event_adoption ⟨.light, .unavailable, .unavailable⟩
      ⟨.light, .unavailable, .unavailable⟩ (some "dark") "other-key").1 (by decide),
   (c6_storage_event_adoption ⟨.light, .unavailable, .unavailable⟩
      ⟨.light, .unavailable, .unavailable⟩ (some "dark") "other-key").2.1 .dark (by decide),
   (c6_storage_event_adoption ⟨.light, .unavailable, .unavailable⟩
      ⟨.light, .unavailable, .unavailable⟩ (some "blue") "other-key").2.2.1 (by decide),
   ((c6_storage_event_adoption ⟨.light, .unavailable, .unavailable⟩
      ⟨.dark, .unavailable, .unavailable⟩ none "other-key").2.2.2 (by decide)).2.2.2.1⟩

/-- C7: applying the same scheme to the document twice yields the same
root attribute, dark-class marker and color-scheme hint as applying it
once. -/
theorem c7_apply_document_scheme_idempotent :
    ∀ (s : ColorScheme) (d : DocumentState),
      applyDocumentScheme s (applyDocumentScheme s d) = applyDocumentScheme s d := by
  intro s d
  cases d <;> rfl

/-- C8: setScheme(s) produces exactly the state of setPreference(s), and
resetPreference() produces exactly the state of setPreference(system). -/
theorem c8_setScheme_reset_equiv_setPreference :
    ∀ (s : ColorScheme) (i : Instance) (st : StorageState),
      setScheme s i st = setPreference s.toPreference i st
      ∧ resetPreference i st = setPreference .system i st := by
  intro s i st
  exact ⟨rfl, rfl⟩

/-- C9: when the stored value reads absent (as after another context
removed the key), the storage handler keeps the instance's preference
unchanged; in particular, after instance A (whose preference is not
already system) resets, the shared key is removed and instance B handling
the notification keeps its own preference — reset is never adopted. -/
theorem c9_reset_not_adopted_cross_context :
    ∀ (iA iB : Instance) (v : Option String) (st : StorageState),
      (readStoredPreference st = none →
        (handleStorage STORAGE_KEY iB st).1.preference = iB.preference)
      ∧ (handleStorage STORAGE_KEY iB (.store none)).1.preference = iB.preference
      ∧ (iA.preference ≠ .system →
          (resetPreference iA (.store v)).2 = .store none
          ∧ (handleStorage STORAGE_KEY iB (resetPreference iA (.store v)).2).1.preference
              = iB.preference) := by
  intro iA iB v st
  have habs : ∀ st2, readStoredPreference st2 = none →
      (handleStorage STORAGE_KEY iB st2).1.preference = iB.preference := by
    intro st2 h2
    rw [handleStorage, if_pos rfl, h2]
    exact rerender_preference iB st2 iB.preference
  refine ⟨habs st, habs (.store none) rfl, ?_⟩
  intro hA
  have hstore : (resetPreference iA (.store v)).2 = .store none := by
    rw [resetPreference, rerender_storage, if_neg (fun h => hA h.symm)]
    rfl
  exact ⟨hstore, by rw [hstore]; exact habs (.store none) rfl⟩

/-- C9 witness: instance A with preference dark resets; B with preference
dark keeps dark after handling the notification on the cleared storage. -/
theorem c9_reset_not_adopted_cross_context_witness :
    (resetPreference ⟨.dark, .unavailable, .unavailable⟩ (.store (some "dark"))).2 = .store none
    ∧ (handleStorage STORAGE_KEY ⟨.dark, .unavailable, .unavailable⟩
        (resetPreference ⟨.dark, .unavailable, .unavailable⟩
          (.store (some "dark"))).2).1.preference = .dark :=
  (c9_reset_not_adopted_cross_context ⟨.dark, .unavailable, .unavailable⟩
    ⟨.dark, .unavailable, .unavailable⟩ (some "dark") .unavailable).2.2 (by decide)

/-- C10: getSupabaseClient caches its first result permanently — a second
call returns exactly the first call's result whatever the environment has
become — and the first result is null exactly when an environment
variable is missing or blank after trimming or construction throws. -/
theorem c10_supabase_client_cached_permanently :
    ∀ (e1 e2 : SupabaseEnv),
      (getSupabaseClient e2 (getSupabaseClient e1 none).2).1 = (getSupabaseClient e1 none).1
      ∧ ((getSupabaseClient e1 none).1 = none ↔
          ((e1.url.map String.trim).getD "" = "" ∨ (e1.anonKey.map String.trim).getD "" = ""
            ∨ e1.createThrows = true)) := by
  intro e1 e2
  have hcache : (getSupabaseClient e1 none).2 = some ((getSupabaseClient e1 none).1) := by
    rw [getSupabaseClient]
    dsimp only
    split_ifs <;> rfl
  constructor
  · rw [hcache]
    rfl
  · rw [getSupabaseClient]
    dsimp only
    split_ifs with h1 h2 <;> simp_all
    tauto
